import Mathlib

/-!
Verification of the ticker-importers-tv data synchronization and
reconciliation pipeline.

The TypeScript sources are embedded shallowly:

* `src/fetch-youtube-videos.ts` — duration parsing/formatting and the
  short-video filter of `getVideosFromChannel`;
* `src/lib/db-operations.ts` — the Persistence Gateway
  (`upsertChannel`, `insertNewMediaItems`, `upsertChannelStatistics`, …)
  over an explicit `Store` value standing for the three database tables,
  with store failures injected through an explicit `FailPlan`;
* the export writer (`escapeCSV`, `arrayToCSV`, `generateSummaryReport`);
* the reconciliation checker (`verifyChannelCounts`, `verifyVideoCounts`,
  `verifyDataIntegrity`, `parseCSVRecordCount`, `verifyCSVFiles`).

JavaScript truthiness on optional strings/numbers is made explicit via
`jsOrStr`, `jsOrNull` and `jsOrInt`.
-/

namespace TickerTV

/-! ## Duration parsing (src/fetch-youtube-videos.ts, parseDurationToSeconds) -/

/-- Numeric value of a digit run, as `parseInt` computes it on a string of
decimal digits. -/
def digitsToNat (ds : List Char) : Nat :=
  ds.foldl (fun n c => n * 10 + (c.toNat - '0'.toNat)) 0

/-- One optional component `(?:(\d+)U)?` of the duration regex at the current
position: a nonempty maximal digit run followed immediately by the unit
letter.  (Backtracking inside the digit run cannot succeed, because the
character after a shorter run is again a digit, never the unit letter.)
Returns the parsed value (0 when the group is absent, as `parseInt(m || '0')`
does) and the rest of the input. -/
def durComponent (unit : Char) (cs : List Char) : Nat × List Char :=
  let ds := cs.takeWhile Char.isDigit
  let rest := cs.drop ds.length
  match rest with
  | u :: rest2 => if ds ≠ [] && u = unit then (digitsToNat ds, rest2) else (0, cs)
  | [] => (0, cs)

/-- Scan for the first occurrence of the literal `PT`, where the regex
`PT(?:(\d+)H)?(?:(\d+)M)?(?:(\d+)S)?` necessarily matches (every group is
optional); returns the characters after `PT`, or `none` when the string has
no `PT` (the `match` returns `null` and the function returns 0). -/
def afterPT : List Char → Option (List Char)
  | 'P' :: 'T' :: rest => some rest
  | _ :: rest => afterPT rest
  | [] => none

/-- Model of `parseDurationToSeconds(duration)` from src/fetch-youtube-videos.ts. -/
def parseDurationToSeconds (s : String) : Nat :=
  match afterPT s.data with
  | none => 0
  | some rest =>
    let hm := durComponent 'H' rest
    let mm := durComponent 'M' hm.2
    let sm := durComponent 'S' mm.2
    hm.1 * 3600 + mm.1 * 60 + sm.1

/-- Model of `n.toString().padStart(2, '0')`. -/
def pad2 (n : Nat) : String :=
  let t := toString n
  if t.length < 2 then "0" ++ t else t

/-- Model of `formatDuration(duration)` from src/fetch-youtube-videos.ts. -/
def formatDuration (s : String) : String :=
  let totalSeconds := parseDurationToSeconds s
  let hours := totalSeconds / 3600
  let minutes := (totalSeconds % 3600) / 60
  let seconds := totalSeconds % 60
  if hours > 0 then
    toString hours ++ ":" ++ pad2 minutes ++ ":" ++ pad2 seconds
  else
    toString minutes ++ ":" ++ pad2 seconds

/-! ## CSV escaping (export writer, escapeCSV) -/

/-- The condition of `escapeCSV`: the field contains a comma, a quote
character, or a newline. -/
def needsQuoting (s : String) : Bool :=
  s.data.contains ',' || s.data.contains '"' || s.data.contains '\n'

/-- Model of `str.replace(/"/g, '""')`. -/
def doubleQuotes : List Char → List Char
  | [] => []
  | c :: cs => if c = '"' then '"' :: '"' :: doubleQuotes cs else c :: doubleQuotes cs

/-- Model of `escapeCSV(value)` on a string value: quote (doubling internal quotes)
iff the field contains a comma, quote, or newline; emit bare otherwise. -/
def escapeCSV (s : String) : String :=
  if needsQuoting s then String.mk ('"' :: (doubleQuotes s.data ++ ['"'])) else s

/-- Model of `escapeCSV` on a nullable string value (`null`/`undefined` become the
empty field). -/
def escapeCSVOpt : Option String → String
  | none => ""
  | some s => escapeCSV s

/-- Whether a serialized field is in quoted form (starts with a quote). -/
def isQuotedField (s : String) : Bool :=
  match s.data with
  | '"' :: _ => true
  | _ => false

/-- Modelled from the spec: a conforming delimited-text field parser (the
inverse direction of the round-trip property; the repository itself ships
no field-level CSV reader).  A field starting with a quote is unquoted,
collapsing doubled quotes and stopping at the closing quote; any other
field is taken verbatim. -/
def unquoteField : List Char → List Char
  | '"' :: '"' :: rest => '"' :: unquoteField rest
  | '"' :: _ => []
  | c :: rest => c :: unquoteField rest
  | [] => []

/-- Modelled from the spec: conforming parse of one serialized CSV field. -/
def parseCSVField (s : String) : String :=
  match s.data with
  | '"' :: rest => String.mk (unquoteField rest)
  | _ => s

/-! ## JavaScript truthiness helpers -/

/-- Model of `v || d` on an optional string (`undefined`, `null` and `''` are falsy). -/
def jsOrStr : Option String → String → String
  | none, d => d
  | some s, d => if s = "" then d else s

/-- Model of `v || null` on an optional string: the empty string collapses to null. -/
def jsOrNull : Option String → Option String
  | none => none
  | some s => if s = "" then none else some s

/-- Model of `v || 0` on an optional number (`0` is falsy, so `getD 0` coincides). -/
def jsOrInt (v : Option Int) : Int :=
  v.getD 0

/-- Truthiness of an optional boolean column (`null` and `false` are falsy). -/
def jsTruthyBool (v : Option Bool) : Bool :=
  v.getD false

/-- Model of `parseInt` on a decimal digit string: value of the longest leading digit
run after an optional sign.  (A string with no leading digits gives `NaN` in
JavaScript; the model returns 0 there — no claim depends on that corner.) -/
def parseIntJS (s : String) : Int :=
  match s.data with
  | '-' :: rest => -(digitsToNat (rest.takeWhile Char.isDigit) : Int)
  | cs => (digitsToNat (cs.takeWhile Char.isDigit) : Int)

/-! ## Data model (src/types/database.ts rows; the three tables as lists) -/

/-- A row of `tv_channels`. -/
structure ChannelRow where
  slug : String
  name : String
  youtube_id : Option String
  visible : Option Bool
  created_at : Option String
deriving DecidableEq, Repr

/-- A row of `tv_media_items`. -/
structure MediaItemRow where
  id : String
  title : String
  date : Option String
  content_type : Option String
  duration : Option String
  description : Option String
  youtube_id : Option String
  image : Option String
  channel_slug : Option String
  youtube_url : Option String
  views : Option Int
  likes : Option Int
  comments : Option Int
  apple_podcasts_url : Option String
  created_at : Option String
deriving DecidableEq, Repr

/-- A row of `tv_channel_statistics` (the surrogate `id` column is not
modelled: nothing in the pipeline reads it back). -/
structure StatRow where
  channel_slug : String
  date : String
  subscriber_count : Option Int
  total_channel_views : Option Int
  total_videos : Option Int
  calculated_total_likes : Option Int
  calculated_total_comments : Option Int
  created_at : Option String
deriving DecidableEq, Repr

/-- The relational store: the three tables of §6, as lists of rows. -/
structure Store where
  channels : List ChannelRow
  items : List MediaItemRow
  stats : List StatRow
deriving DecidableEq, Repr

/-- The `thumbnails` object of `VideoData` (src/lib/db-operations.ts). -/
structure Thumbnails where
  thumbDefault : Option String
  medium : Option String
  high : Option String
  standard : Option String
  maxres : Option String
deriving DecidableEq, Repr

/-- Model of `VideoData` (src/lib/db-operations.ts): the mapped record handed to the
Persistence Gateway. -/
structure VideoData where
  id : String
  title : String
  date : String
  contentType : Option String
  duration : Option String
  description : Option String
  thumbnails : Option Thumbnails
  views : Option Int
  likes : Option Int
  comments : Option Int
deriving DecidableEq, Repr

/-- Model of `ChannelData` (src/lib/db-operations.ts). -/
structure ChannelData where
  slug : String
  name : String
  youtubeId : Option String
deriving DecidableEq, Repr

/-- Model of `ChannelStatistics` (src/lib/db-operations.ts): raw remote statistics. -/
structure ChannelStatistics where
  subscriberCount : Option String
  viewCount : Option String
  videoCount : Option String
deriving DecidableEq, Repr

/-- Model of `.from(VIDEOS_TABLE).select(...).eq('channel_slug', channelSlug)`. -/
def itemsOf (s : Store) (slug : String) : List MediaItemRow :=
  s.items.filter (fun r => r.channel_slug = some slug)

/-- The existing id set loaded at the start of `insertNewMediaItems`. -/
def existingIds (s : Store) (slug : String) : List String :=
  (itemsOf s slug).map (fun r => r.id)

/-! ## Persistence Gateway (src/lib/db-operations.ts) -/

/-- The `channelRecord` upsert of `upsertChannel` applied to an existing row
with the same slug: the sent columns (`slug`, `name`, `youtube_id`) are
overwritten, the unsent columns (`visible`, `created_at`) are preserved. -/
def applyChanRecord (c : ChannelRow) (d : ChannelData) : ChannelRow :=
  { c with name := d.name, youtube_id := jsOrNull d.youtubeId }

/-- The row created by `upsertChannel` for an unseen slug (unsent columns
take their database defaults, modelled as null). -/
def newChanRow (d : ChannelData) : ChannelRow :=
  { slug := d.slug, name := d.name, youtube_id := jsOrNull d.youtubeId,
    visible := none, created_at := none }

/-- Model of `upsertChannel(channelData)`: idempotent write keyed by `slug`
(success path on the store). -/
def upsertChannelPure (s : Store) (d : ChannelData) : Store :=
  if s.channels.any (fun c => c.slug = d.slug) then
    let updated := s.channels.map
      (fun c => if c.slug = d.slug then applyChanRecord c d else c)
    { s with channels := updated }
  else
    { s with channels := s.channels ++ [newChanRow d] }

/-- The full row built by `insertNewMediaItems` for an unseen video id. -/
def buildNewRecord (channelSlug : String) (v : VideoData) : MediaItemRow :=
  { id := v.id
    title := v.title
    date := some v.date
    content_type := some (jsOrStr v.contentType "podcast")
    duration := jsOrNull v.duration
    description := jsOrNull v.description
    youtube_id := some v.id
    image := jsOrNull (match v.thumbnails with
      | some t => match jsOrNull t.high with
        | some h => some h
        | none => t.thumbDefault
      | none => none)
    channel_slug := some channelSlug
    youtube_url := some ("https://www.youtube.com/watch?v=" ++ v.id)
    views := some (jsOrInt v.views)
    likes := some (jsOrInt v.likes)
    comments := some (jsOrInt v.comments)
    apple_podcasts_url := none
    created_at := none }

/-- One queued counter update of `insertNewMediaItems`:
`(id, views, likes, comments)` with absent counters defaulted to 0. -/
def updateTupleOf (v : VideoData) : String × Int × Int × Int :=
  (v.id, jsOrInt v.views, jsOrInt v.likes, jsOrInt v.comments)

/-- The partition loop of `insertNewMediaItems`: each incoming video whose id
is already stored contributes a counter update, every other one a full new
record.  (The existing-id set is not extended during the loop, exactly as in
the source.) -/
def syncPlan (channelSlug : String) (existing : List String) :
    List VideoData → List (String × Int × Int × Int) × List MediaItemRow
  | [] => ([], [])
  | v :: vs =>
    let rest := syncPlan channelSlug existing vs
    if v.id ∈ existing then (updateTupleOf v :: rest.1, rest.2)
    else (rest.1, buildNewRecord channelSlug v :: rest.2)

/-- Model of `.update({views, likes, comments}).eq('id', id)`: overwrite exactly the
three counter columns of every row with the given id. -/
def applyUpdate (items : List MediaItemRow) (u : String × Int × Int × Int) :
    List MediaItemRow :=
  items.map (fun r =>
    if r.id = u.1 then
      { r with views := some u.2.1, likes := some u.2.2.1, comments := some u.2.2.2 }
    else r)

/-- All queued counter updates, applied in order. -/
def applyUpdates (items : List MediaItemRow) (us : List (String × Int × Int × Int)) :
    List MediaItemRow :=
  us.foldl applyUpdate items

/-- Model of `insertNewMediaItems(channelSlug, videos)` success path: partition against
the stored id set, overwrite counters of existing rows, bulk-append the new
rows. -/
def insertNewMediaItemsPure (s : Store) (channelSlug : String)
    (videos : List VideoData) : Store :=
  let plan := syncPlan channelSlug (existingIds s channelSlug) videos
  { s with items := applyUpdates s.items plan.1 ++ plan.2 }

/-- Sum of `(item.likes || 0)` over the channel's stored media items. -/
def sumLikes (s : Store) (slug : String) : Int :=
  ((itemsOf s slug).map (fun r => jsOrInt r.likes)).sum

/-- Sum of `(item.comments || 0)` over the channel's stored media items. -/
def sumComments (s : Store) (slug : String) : Int :=
  ((itemsOf s slug).map (fun r => jsOrInt r.comments)).sum

/-- The snapshot record assembled by `upsertChannelStatistics` (the `date`
argument stands for `date || today`; the clock is outside the model). -/
def statRecordOf (s : Store) (slug : String) (stats : ChannelStatistics)
    (date : String) : StatRow :=
  { channel_slug := slug
    date := date
    subscriber_count := some (match jsOrNull stats.subscriberCount with
      | some t => parseIntJS t
      | none => 0)
    total_channel_views := some (match jsOrNull stats.viewCount with
      | some t => parseIntJS t
      | none => 0)
    total_videos := some (match jsOrNull stats.videoCount with
      | some t => parseIntJS t
      | none => 0)
    calculated_total_likes := some (sumLikes s slug)
    calculated_total_comments := some (sumComments s slug)
    created_at := none }

/-- Model of `upsertChannelStatistics(channelSlug, statistics, date)` success path:
one snapshot row upserted by the `(channel_slug, date)` unique key. -/
def upsertChannelStatisticsPure (s : Store) (slug : String)
    (stats : ChannelStatistics) (date : String) : Store :=
  let r := statRecordOf s slug stats date
  if s.stats.any (fun x => x.channel_slug = slug && x.date = date) then
    let updated := s.stats.map
      (fun x => if x.channel_slug = slug && x.date = date then
        { r with created_at := x.created_at } else x)
    { s with stats := updated }
  else
    { s with stats := s.stats ++ [r] }

/-! ## Failure injection for the gateway

Each supabase call returns `{data, error}`; the gateway throws
`new Error(prefixText + error.message)` whenever it checks `error`.  A
`FailPlan` fixes, per primitive call, whether the store reports an error.
The per-item counter updates of `insertNewMediaItems` are queued as
fire-and-forget promises whose `error` field is never read, so their
failures make the row update not happen but surface nowhere. -/

structure FailPlan where
  selectIdsErr : Option String
  updateErr : String → Option String
  insertErr : Option String
  upsertChannelErr : Option String
  selectAllChannelsErr : Option String
  selectItemsErr : Option String
  selectCountersErr : Option String
  upsertStatsErr : Option String
  selectLatestDateErr : Option String
  selectHistoryErr : Option String

/-- A fail plan under which every store call succeeds. -/
def noFail : FailPlan :=
  ⟨none, fun _ => none, none, none, none, none, none, none, none, none⟩

/-- Model of the `getLatestMediaItemDate(channelSlug)` success payload: the
channel's rows ordered by `date` descending, limited to one, returning
`data[0].date` only when it is truthy.  PostgreSQL places NULL dates first
under `DESC` ordering, so any null-date row for the channel yields `null`;
otherwise the head is the maximal date (ISO `YYYY-MM-DD` strings compare
lexicographically as dates). -/
def getLatestMediaItemDatePure (s : Store) (slug : String) : Option String :=
  let rows := itemsOf s slug
  if rows.isEmpty then none
  else if rows.any (fun r => r.date.isNone) then none
  else jsOrNull (some ((rows.filterMap (fun r => r.date)).foldl (fun a b => if a < b then b else a) ""))

/-- Descending-by-date stable insertion standing for `ORDER BY date DESC`
(PostgreSQL leaves equal-date rows in unspecified relative order; the model
keeps them stable). -/
def insertByDateDesc (x : StatRow) : List StatRow → List StatRow
  | [] => [x]
  | y :: ys => if y.date < x.date then x :: y :: ys else y :: insertByDateDesc x ys

/-- Model of the `ORDER BY date DESC` sort over snapshot rows. -/
def sortByDateDesc (l : List StatRow) : List StatRow :=
  l.foldr insertByDateDesc []

/-- Model of the `getChannelStatisticsHistory(channelSlug, days)` success
payload: the channel's snapshots ordered by date descending, capped at
`days` rows. -/
def getChannelStatisticsHistoryPure (s : Store) (slug : String) (days : Nat) :
    List StatRow :=
  (sortByDateDesc (s.stats.filter (fun x => x.channel_slug = slug))).take days

/-- Counter updates under failure injection: a failing update leaves the rows
untouched, and — matching the unread `error` fields — reports nothing. -/
def applyUpdatesFallible (fp : FailPlan) (items : List MediaItemRow)
    (us : List (String × Int × Int × Int)) : List MediaItemRow :=
  us.foldl (fun acc u => match fp.updateErr u.1 with
    | some _ => acc
    | none => applyUpdate acc u) items

/-- Model of `upsertChannel` with its error check. -/
def upsertChannelE (fp : FailPlan) (s : Store) (d : ChannelData) :
    Except String Store :=
  match fp.upsertChannelErr with
  | some m => .error ("Failed to upsert channel: " ++ m)
  | none => .ok (upsertChannelPure s d)

/-- Model of `insertNewMediaItems` with its two error checks (the existing-id select
and the bulk insert); the per-item updates are not checked. -/
def insertNewMediaItemsE (fp : FailPlan) (s : Store) (channelSlug : String)
    (videos : List VideoData) : Except String Store :=
  match fp.selectIdsErr with
  | some m => .error ("Failed to fetch existing videos: " ++ m)
  | none =>
    let plan := syncPlan channelSlug (existingIds s channelSlug) videos
    let items1 := applyUpdatesFallible fp s.items plan.1
    if plan.2.isEmpty then .ok { s with items := items1 }
    else
      match fp.insertErr with
      | some m => .error ("Failed to insert new media items: " ++ m)
      | none => .ok { s with items := items1 ++ plan.2 }

/-- Model of `getChannelMediaItems` with its error check. -/
def getChannelMediaItemsE (fp : FailPlan) (s : Store) (slug : String) :
    Except String (List MediaItemRow) :=
  match fp.selectItemsErr with
  | some m => .error ("Failed to get channel media items: " ++ m)
  | none => .ok (itemsOf s slug)

/-- Model of `getAllChannels` with its error check. -/
def getAllChannelsE (fp : FailPlan) (s : Store) :
    Except String (List ChannelRow) :=
  match fp.selectAllChannelsErr with
  | some m => .error ("Failed to get all channels: " ++ m)
  | none => .ok s.channels

/-- Model of `getLatestMediaItemDate` with its error check. -/
def getLatestMediaItemDateE (fp : FailPlan) (s : Store) (slug : String) :
    Except String (Option String) :=
  match fp.selectLatestDateErr with
  | some m => .error ("Failed to get latest media item date: " ++ m)
  | none => .ok (getLatestMediaItemDatePure s slug)

/-- Model of `getChannelStatisticsHistory` with its error check. -/
def getChannelStatisticsHistoryE (fp : FailPlan) (s : Store) (slug : String)
    (days : Nat) : Except String (List StatRow) :=
  match fp.selectHistoryErr with
  | some m => .error ("Failed to get channel statistics history: " ++ m)
  | none => .ok (getChannelStatisticsHistoryPure s slug days)

/-- Model of `upsertChannelStatistics` with its two error checks (the counter select
and the snapshot upsert). -/
def upsertChannelStatisticsE (fp : FailPlan) (s : Store) (slug : String)
    (stats : ChannelStatistics) (date : String) : Except String Store :=
  match fp.selectCountersErr with
  | some m => .error ("Failed to get video stats: " ++ m)
  | none =>
    match fp.upsertStatsErr with
    | some m => .error ("Failed to upsert channel statistics: " ++ m)
    | none => .ok (upsertChannelStatisticsPure s slug stats date)

/-! ## Remote Catalog Client mapping (src/fetch-youtube-videos.ts,
getVideosFromChannel inner loop) -/

/-- Truthiness of an optional string column. -/
def jsTruthyStr : Option String → Bool
  | none => false
  | some t => t ≠ ""

/-- The fields of one detailed remote video record that the mapping loop
reads (`video.id`, `video.snippet.*`, `video.contentDetails.duration`,
`video.statistics?.*`); each statistics/thumbnail field is `none` when the
payload omits it (or omits the whole `statistics` object). -/
structure RemoteVideo where
  id : String
  title : String
  description : String
  publishedAt : String
  duration : String
  viewCount : Option String
  likeCount : Option String
  commentCount : Option String
  thumbDefault : Option String
  thumbMedium : Option String
  thumbHigh : Option String
  thumbStandard : Option String
  thumbMaxres : Option String
deriving DecidableEq, Repr

/-- The `videos.push({...})` record built for one kept remote video.
`normDate` stands for `new Date(publishedAt).toISOString().split('T')[0]`
(JavaScript `Date` is outside the model, so the calendar-day normalization
is an explicit function argument). -/
def mapRemoteVideo (normDate : String → String) (v : RemoteVideo) : VideoData :=
  { id := v.id
    title := v.title
    date := normDate v.publishedAt
    contentType := some "podcast"
    duration := some (formatDuration v.duration)
    description := some v.description
    thumbnails := some
      { thumbDefault := some (jsOrStr v.thumbDefault "")
        medium := some (jsOrStr v.thumbMedium "")
        high := some (jsOrStr v.thumbHigh "")
        standard := some (jsOrStr v.thumbStandard "")
        maxres := some (jsOrStr v.thumbMaxres "") }
    views := some (parseIntJS (jsOrStr v.viewCount "0"))
    likes := some (parseIntJS (jsOrStr v.likeCount "0"))
    comments := some (parseIntJS (jsOrStr v.commentCount "0")) }

/-- Model of `limitVideos && videos.length >= limitVideos` (a limit of 0 is falsy). -/
def limitReached (limit : Option Nat) (len : Nat) : Bool :=
  match limit with
  | some l => l ≠ 0 && len ≥ l
  | none => false

/-- The per-video loop of `getVideosFromChannel` over the detailed records of
the (concatenated) pages: skip every video shorter than 120 seconds, map the
rest, and return early once the optional limit is reached.  `cnt` is the
number of videos already collected. -/
def processVideos (normDate : String → String) (limit : Option Nat)
    (cnt : Nat) : List RemoteVideo → List VideoData
  | [] => []
  | v :: vs =>
    if parseDurationToSeconds v.duration < 120 then
      processVideos normDate limit cnt vs
    else
      let m := mapRemoteVideo normDate v
      if limitReached limit (cnt + 1) then [m]
      else m :: processVideos normDate limit (cnt + 1) vs

/-! ## Export Writer (escapeCSV callers, arrayToCSV, generateSummaryReport) -/

/-- Model of `escapeCSV` on a nullable boolean column (`String(true) = "true"`). -/
def escBool : Option Bool → String
  | none => ""
  | some true => escapeCSV "true"
  | some false => escapeCSV "false"

/-- Model of `escapeCSV` on a nullable numeric column. -/
def escInt : Option Int → String
  | none => ""
  | some n => escapeCSV (toString n)

/-- One `export_channels.csv` data row, in the fixed header order
`slug,name,youtube_id,visible,created_at`. -/
def channelCsvLine (c : ChannelRow) : String :=
  String.intercalate ","
    [escapeCSV c.slug, escapeCSV c.name, escapeCSVOpt c.youtube_id,
     escBool c.visible, escapeCSVOpt c.created_at]

/-- Model of `exportChannelsToCSV` file content. -/
def channelsCsvOf (s : Store) : String :=
  String.intercalate "\n"
    ("slug,name,youtube_id,visible,created_at" :: s.channels.map channelCsvLine)

/-- The `allVideos` accumulation of `exportVideosToCSV`: every channel's
media items, in channel order. -/
def allVideosOf (s : Store) : List MediaItemRow :=
  s.channels.flatMap (fun c => itemsOf s c.slug)

/-- One `export_videos.csv` data row, in the fixed 15-column header order. -/
def videoCsvLine (r : MediaItemRow) : String :=
  String.intercalate ","
    [escapeCSV r.id, escapeCSV r.title, escapeCSVOpt r.date,
     escapeCSVOpt r.content_type, escapeCSVOpt r.duration,
     escapeCSVOpt r.description, escapeCSVOpt r.youtube_id,
     escapeCSVOpt r.image, escapeCSVOpt r.channel_slug,
     escapeCSVOpt r.youtube_url, escInt r.views, escInt r.likes,
     escInt r.comments, escapeCSVOpt r.apple_podcasts_url,
     escapeCSVOpt r.created_at]

/-- Model of `exportVideosToCSV` file content. -/
def videosCsvOf (s : Store) : String :=
  String.intercalate "\n"
    (("id,title,date,content_type,duration,description,youtube_id,image," ++
      "channel_slug,youtube_url,views,likes,comments,apple_podcasts_url," ++
      "created_at") :: (allVideosOf s).map videoCsvLine)

/-- One `export_channel_statistics.csv` data row (the surrogate `id` column,
which nothing downstream reads, is emitted empty). -/
def statCsvLine (x : StatRow) : String :=
  String.intercalate ","
    ["", escapeCSV x.channel_slug, escapeCSV x.date,
     escInt x.subscriber_count, escInt x.total_channel_views,
     escInt x.total_videos, escInt x.calculated_total_likes,
     escInt x.calculated_total_comments, escapeCSVOpt x.created_at]

/-- Model of `exportChannelStatisticsToCSV` file content. -/
def statsCsvOf (s : Store) : String :=
  String.intercalate "\n"
    (("id,channel_slug,date,subscriber_count,total_channel_views," ++
      "total_videos,calculated_total_likes,calculated_total_comments," ++
      "created_at") :: s.stats.map statCsvLine)

/-- Model of `channels.filter(c => c.visible)` predicate of the summary report. -/
def visiblePred (c : ChannelRow) : Bool :=
  jsTruthyBool c.visible

/-- Model of `channels.filter(c => !c.visible)` predicate of the summary report. -/
def hiddenPred (c : ChannelRow) : Bool :=
  !(jsTruthyBool c.visible)

/-- Model of `channels.filter(c => c.visible === null)` predicate of the summary. -/
def nullVisPred (c : ChannelRow) : Bool :=
  c.visible.isNone

/-- Per-channel video count total of `generateSummaryReport`. -/
def totalVideosOf (s : Store) : Nat :=
  (s.channels.map (fun c => (itemsOf s c.slug).length)).sum

/-- The parsed content of `export_summary.json` (the generation timestamp is
outside the model; nothing downstream reads it). -/
structure Summary where
  total_channels : Nat
  visibleCnt : Nat
  hiddenCnt : Nat
  nullVisibilityCnt : Nat
  channelsWithYoutubeId : Nat
  total_videos : Nat
  videos_per_channel : List (String × Nat)
deriving DecidableEq, Repr

/-- Model of `generateSummaryReport` content for a store. -/
def summaryOf (s : Store) : Summary :=
  { total_channels := s.channels.length
    visibleCnt := (s.channels.filter visiblePred).length
    hiddenCnt := (s.channels.filter hiddenPred).length
    nullVisibilityCnt := (s.channels.filter nullVisPred).length
    channelsWithYoutubeId := (s.channels.filter (fun c => jsTruthyStr c.youtube_id)).length
    total_videos := totalVideosOf s
    videos_per_channel := s.channels.map (fun c => (c.slug, (itemsOf s c.slug).length)) }

/-! ## Reconciliation Checker (verify script) -/

/-- Model of `summary.videos_per_channel[channel.slug] || 0`. -/
def lookupVPC (sum : Summary) (slug : String) : Nat :=
  match sum.videos_per_channel.find? (fun p => p.1 = slug) with
  | some p => p.2
  | none => 0

/-- Check 1, `verifyChannelCounts`: persisted channel count vs. the
summary's `total_channels`. -/
def verifyChannelCountsPassed (s : Store) (sum : Summary) : Bool :=
  s.channels.length = sum.total_channels

/-- Check 2, `verifyVideoCounts`: passes iff the persisted total equals the
summary's `total_videos` and no per-channel count disagrees. -/
def verifyVideoCountsPassed (s : Store) (sum : Summary) : Bool :=
  let mismatches := s.channels.filter
    (fun c => (itemsOf s c.slug).length ≠ lookupVPC sum c.slug)
  decide (totalVideosOf s = sum.total_videos) && mismatches.isEmpty

/-- Model of `video.views !== null && video.views < 0` (and likewise for the other
counters). -/
def negCounter : Option Int → Bool
  | none => false
  | some n => n < 0

/-- Model of `sub.isPrefixOf hay`, spelled out on character lists. -/
def startsWithL : List Char → List Char → Bool
  | [], _ => true
  | _ :: _, [] => false
  | a :: as, b :: bs => a = b && startsWithL as bs

/-- Model of `hay.includes(sub)`: the needle occurs at some position. -/
def inclAux (sub : List Char) : List Char → Bool
  | [] => sub.isEmpty
  | c :: rest => startsWithL sub (c :: rest) || inclAux sub rest

/-- JavaScript `hay.includes(sub)`. -/
def strIncludes (hay sub : String) : Bool :=
  inclAux sub.data hay.data

/-- The malformed-URL test of `verifyDataIntegrity`:
`video.youtube_url && !video.youtube_url.includes('youtube.com/watch?v=')`. -/
def urlIssue (v : MediaItemRow) : Bool :=
  jsTruthyStr v.youtube_url &&
    !(strIncludes (v.youtube_url.getD "") "youtube.com/watch?v=")

/-- The integrity issues contributed by one media item, in source order. -/
def videoIssues (slug : String) (v : MediaItemRow) : List String :=
  (if v.id = "" then ["Video missing ID in channel " ++ slug] else []) ++
  (if v.title = "" then
    ["Video " ++ v.id ++ " missing title in channel " ++ slug] else []) ++
  (if jsTruthyStr v.date then [] else
    ["Video " ++ v.id ++ " missing date in channel " ++ slug]) ++
  (if urlIssue v then
    ["Video " ++ v.id ++ " has invalid YouTube URL format in channel " ++ slug]
   else []) ++
  (if negCounter v.views then
    ["Video " ++ v.id ++ " has negative views in channel " ++ slug] else []) ++
  (if negCounter v.likes then
    ["Video " ++ v.id ++ " has negative likes in channel " ++ slug] else []) ++
  (if negCounter v.comments then
    ["Video " ++ v.id ++ " has negative comments in channel " ++ slug] else [])

/-- The integrity issues contributed by one channel and its media items. -/
def channelIssues (s : Store) (c : ChannelRow) : List String :=
  (if jsTruthyStr c.youtube_id then []
   else ["Channel " ++ c.slug ++ " missing youtube_id"]) ++
  (itemsOf s c.slug).flatMap (videoIssues c.slug)

/-- The full issue list of `verifyDataIntegrity`. -/
def integrityIssues (s : Store) : List String :=
  s.channels.flatMap (channelIssues s)

/-- Check 3, `verifyDataIntegrity`: passes iff no issue was collected. -/
def verifyDataIntegrityPassed (s : Store) : Bool :=
  (integrityIssues s).isEmpty

/-- JavaScript `content.split('\n')` on the character level: the list of
lines, with separators removed and empty segments kept. -/
def splitLines : List Char → List (List Char)
  | [] => [[]]
  | '\n' :: rest => [] :: splitLines rest
  | c :: rest =>
    match splitLines rest with
    | l :: ls => (c :: l) :: ls
    | [] => [[c]]

/-- JavaScript `line.trim()`: strip whitespace from both ends. -/
def trimL (cs : List Char) : List Char :=
  ((cs.dropWhile Char.isWhitespace).reverse.dropWhile Char.isWhitespace).reverse

/-- Number of occurrences of a character (`(line.match(/"/g) || []).length`). -/
def countChar (c : Char) (cs : List Char) : Nat :=
  (cs.filter (fun x => x = c)).length

/-- The row-start heuristic `/^[a-zA-Z0-9_-]{11},/` of
`parseCSVRecordCount`: exactly eleven identifier-like characters followed by
a comma. -/
def looksLikeRecordStart (cs : List Char) : Bool :=
  (cs.take 11).length = 11 &&
  (cs.take 11).all (fun c => c.isAlphanum || c = '_' || c = '-') &&
  (match cs.drop 11 with
   | ',' :: _ => true
   | _ => false)

/-- The scan loop of `parseCSVRecordCount`: whitespace-only lines are
skipped entirely (their quotes are not tracked, matching the `continue`);
other lines bump the count when they open a record outside quotes, and an
odd number of quote characters toggles the in-quotes state. -/
def pcrcLoop : List (List Char) → Bool → Nat → Nat
  | [], _, n => n
  | l :: rest, inQ, n =>
    let line := trimL l
    if line.isEmpty then pcrcLoop rest inQ n
    else
      let n1 := if !inQ && looksLikeRecordStart line then n + 1 else n
      let q := countChar '"' line
      let inQ1 := if q % 2 = 1 then !inQ else inQ
      pcrcLoop rest inQ1 n1

/-- Model of `parseCSVRecordCount(csvContent)`: header line skipped, then the scan. -/
def parseCSVRecordCountV (content : String) : Nat :=
  pcrcLoop ((splitLines content.data).drop 1) false 0

/-- The export artifacts as the verify script sees them on disk
(`none` = missing file; the summary JSON is carried separately as a parsed
`Summary`, with only its existence recorded here). -/
structure ExportFiles where
  channelsCsv : Option String
  videosCsv : Option String
  statsCsv : Option String
  summaryExists : Bool
deriving DecidableEq, Repr

/-- Model of `split('\n').filter(line => line.trim() !== '').length`. -/
def nonEmptyLineCount (content : String) : Nat :=
  ((splitLines content.data).filter (fun l => !(trimL l).isEmpty)).length

/-- Check 4, `verifyCSVFiles`: all four artifacts exist, the channels CSV
has `total_channels` non-empty lines beyond the header, and the heuristic
video-record count equals the summary's `total_videos`. -/
def verifyCSVFilesPassed (files : ExportFiles) (sum : Summary) : Bool :=
  match files.channelsCsv, files.videosCsv, files.statsCsv,
      files.summaryExists with
  | some cc, some vc, some _, true =>
    decide ((nonEmptyLineCount cc : Int) - 1 = (sum.total_channels : Int)) &&
    decide (parseCSVRecordCountV vc = sum.total_videos)
  | _, _, _, _ => false

/-- The artifacts produced by a full export run over a store. -/
def exportFilesOf (s : Store) : ExportFiles :=
  { channelsCsv := some (channelsCsvOf s)
    videosCsv := some (videosCsvOf s)
    statsCsv := some (statsCsvOf s)
    summaryExists := true }

/-! ## Concrete reconciliation scenario (§8 of the spec)

A store with 2 channels holding 5 and 3 media items (YouTube-style
11-character ids, so the row-start heuristic of `parseCSVRecordCount`
recognizes them), the summary generated from that store, and the export
files written from it. -/

/-- A well-formed incoming video record for the scenario. -/
def demoVideo (i : String) : VideoData :=
  ⟨i, "t", "2024-01-01", none, none, none, none, some 1, some 2, some 3⟩

/-- The scenario store: channels `A` (5 items) and `B` (3 items), all rows
shaped exactly as the sync pipeline inserts them. -/
def demoStore : Store :=
  { channels := [⟨"A", "Alpha", some "UCa", some true, none⟩,
                 ⟨"B", "Beta", some "UCb", some true, none⟩]
    items :=
      (["aaaaaaaaaa1", "aaaaaaaaaa2", "aaaaaaaaaa3", "aaaaaaaaaa4",
        "aaaaaaaaaa5"].map (fun i => buildNewRecord "A" (demoVideo i))) ++
      (["bbbbbbbbbb1", "bbbbbbbbbb2", "bbbbbbbbbb3"].map
        (fun i => buildNewRecord "B" (demoVideo i)))
    stats := [] }

/-- The summary report generated from the scenario store
(`total_channels = 2`, `total_videos = 8`, `videos_per_channel = {A:5,B:3}`). -/
def demoSummary : Summary := summaryOf demoStore

/-- The export artifacts written from the scenario store. -/
def demoFiles : ExportFiles := exportFilesOf demoStore

/-- The scenario summary with only `total_videos` mutated to 7. -/
def demoSummaryMut : Summary := { demoSummary with total_videos := 7 }

/-- A store holding one already-synced media item, used to exhibit the
swallowed per-item update failure. -/
def demoStoreX : Store := ⟨[], [buildNewRecord "c" (demoVideo "x")], []⟩

/-- A fail plan where only the counter update of item `x` fails. -/
def demoFailPlan : FailPlan :=
  { noFail with updateErr := fun i => if i = "x" then some "boom" else none }

/-- The non-counter (descriptive) columns of a media item row: everything
the sync may never overwrite on an existing row. -/
def descFields (r : MediaItemRow) :
    String × String × Option String × Option String × Option String ×
    Option String × Option String × Option String × Option String ×
    Option String × Option String × Option String :=
  (r.id, r.title, r.date, r.content_type, r.duration, r.description,
   r.youtube_id, r.image, r.channel_slug, r.youtube_url,
   r.apple_podcasts_url, r.created_at)

/-- A store whose channel `c` holds three items with likes 3, 7 and 0 (and
one foreign-channel item that must not be aggregated). -/
def demoStoreLikes : Store :=
  ⟨[], [buildNewRecord "c" ⟨"i1", "t", "d", none, none, none, none, none, some 3, none⟩,
        buildNewRecord "c" ⟨"i2", "t", "d", none, none, none, none, none, some 7, none⟩,
        buildNewRecord "c" ⟨"i3", "t", "d", none, none, none, none, none, some 0, none⟩,
        buildNewRecord "other" ⟨"i4", "t", "d", none, none, none, none, none, some 99, none⟩],
   []⟩

/-- A fail plan under which every store call reports `boom`. -/
def demoFailPlanAll : FailPlan :=
  ⟨some "boom", fun _ => some "boom", some "boom", some "boom",
   some "boom", some "boom", some "boom", some "boom",
   some "boom", some "boom"⟩

/-! ## Helper lemmas -/

theorem all_digits_takeWhile (ds : List Char) (c : Char) (t : List Char)
    (h1 : ds.all Char.isDigit = true) (h2 : Char.isDigit c = false) :
    (ds ++ c :: t).takeWhile Char.isDigit = ds := by
  induction ds with
  | nil => simp [List.takeWhile_cons, h2]
  | cons a as ih =>
    simp only [List.all_cons, Bool.and_eq_true] at h1
    simp [List.takeWhile_cons, h1.1, ih h1.2]

theorem durComponent_run (u : Char) (ds t : List Char)
    (h0 : ds ≠ []) (h1 : ds.all Char.isDigit = true)
    (h2 : Char.isDigit u = false) :
    durComponent u (ds ++ u :: t) = (digitsToNat ds, t) := by
  simp only [durComponent, all_digits_takeWhile ds u t h1 h2, List.drop_left]
  simp [h0]

theorem parseDuration_full (hd md sd : List Char)
    (e1 : hd ≠ []) (e2 : md ≠ []) (e3 : sd ≠ [])
    (d1 : hd.all Char.isDigit = true) (d2 : md.all Char.isDigit = true)
    (d3 : sd.all Char.isDigit = true) :
    parseDurationToSeconds
      (String.mk ('P' :: 'T' :: (hd ++ 'H' :: (md ++ 'M' :: (sd ++ ['S']))))) =
      digitsToNat hd * 3600 + digitsToNat md * 60 + digitsToNat sd := by
  have ha : afterPT ('P' :: 'T' :: (hd ++ 'H' :: (md ++ 'M' :: (sd ++ ['S'])))) =
      some (hd ++ 'H' :: (md ++ 'M' :: (sd ++ ['S']))) := rfl
  simp only [parseDurationToSeconds, ha,
    durComponent_run 'H' hd _ e1 d1 (by decide),
    durComponent_run 'M' md _ e2 d2 (by decide),
    durComponent_run 'S' sd _ e3 d3 (by decide)]

theorem unquote_double (l : List Char) :
    unquoteField (doubleQuotes l ++ ['"']) = l := by
  induction l with
  | nil => rfl
  | cons c cs ih =>
    by_cases hc : c = '"'
    · subst hc
      simp only [doubleQuotes, if_pos rfl, List.cons_append]
      simpa [unquoteField] using ih
    · simp only [doubleQuotes, if_neg hc, List.cons_append]
      simpa [unquoteField, hc] using ih

theorem needsQuoting_false_not_mem {s : String} (h : needsQuoting s = false) :
    ',' ∉ s.data ∧ '"' ∉ s.data ∧ '\n' ∉ s.data := by
  simp only [needsQuoting, Bool.or_eq_false_iff] at h
  obtain ⟨⟨h1, h2⟩, h3⟩ := h
  refine ⟨?_, ?_, ?_⟩ <;> intro hm
  · rw [List.contains, List.elem_eq_mem] at h1; simp [hm] at h1
  · rw [List.contains, List.elem_eq_mem] at h2; simp [hm] at h2
  · rw [List.contains, List.elem_eq_mem] at h3; simp [hm] at h3

/-! ## Claim theorems -/

/-- Claim C4: `parseDurationToSeconds` converts the optional hour, minute and
second components of a `PT#H#M#S` token to total seconds (stated for symbolic
digit runs), and `formatDuration` renders `H:MM:SS` when hours are positive
and `M:SS` otherwise: `PT1H2M3S` gives 3723 seconds displayed `1:02:03`,
`PT5M9S` gives 309 seconds displayed `5:09`, and `PT0S` as well as an
unparseable string give 0 seconds displayed `0:00`. -/
theorem c4_duration_parse_format :
    (∀ hd md sd : List Char, hd ≠ [] → md ≠ [] → sd ≠ [] →
      hd.all Char.isDigit = true → md.all Char.isDigit = true →
      sd.all Char.isDigit = true →
      parseDurationToSeconds
        (String.mk ('P' :: 'T' :: (hd ++ 'H' :: (md ++ 'M' :: (sd ++ ['S']))))) =
        digitsToNat hd * 3600 + digitsToNat md * 60 + digitsToNat sd) ∧
    parseDurationToSeconds "PT1H2M3S" = 3723 ∧
    formatDuration "PT1H2M3S" = "1:02:03" ∧
    parseDurationToSeconds "PT5M9S" = 309 ∧
    formatDuration "PT5M9S" = "5:09" ∧
    parseDurationToSeconds "PT0S" = 0 ∧
    formatDuration "PT0S" = "0:00" ∧
    parseDurationToSeconds "no duration here" = 0 ∧
    formatDuration "no duration here" = "0:00" := by
  refine ⟨fun hd md sd e1 e2 e3 d1 d2 d3 =>
    parseDuration_full hd md sd e1 e2 e3 d1 d2 d3, ?_, ?_, ?_, ?_, ?_, ?_, ?_, ?_⟩
  all_goals decide

/-- Claim C4 witness: the symbolic part of the theorem evaluated at the
digit runs of `PT1H2M3S`. -/
theorem c4_duration_parse_format_witness :
    parseDurationToSeconds
      (String.mk ('P' :: 'T' :: (['1'] ++ 'H' :: (['2'] ++ 'M' :: (['3'] ++ ['S']))))) =
      digitsToNat ['1'] * 3600 + digitsToNat ['2'] * 60 + digitsToNat ['3'] :=
  c4_duration_parse_format.1 ['1'] ['2'] ['3'] (by decide) (by decide)
    (by decide) (by decide) (by decide) (by decide)

/-- Claim C6: `escapeCSV` produces a quoted field exactly when the value
contains a comma, a quote or a newline; a conforming field parser recovers
every original string from the serialized field; and the field
`He said "hi", ok` serializes to `"He said ""hi"", ok"`. -/
theorem c6_csv_escape_roundtrip :
    (∀ s : String, isQuotedField (escapeCSV s) = needsQuoting s ∧
      parseCSVField (escapeCSV s) = s) ∧
    escapeCSV "He said \"hi\", ok" = "\"He said \"\"hi\"\", ok\"" ∧
    parseCSVField "\"He said \"\"hi\"\", ok\"" = "He said \"hi\", ok" := by
  refine ⟨fun s => ?_, by decide, by decide⟩
  by_cases h : needsQuoting s = true
  · rw [show escapeCSV s = String.mk ('"' :: (doubleQuotes s.data ++ ['"'])) by
      simp [escapeCSV, h]]
    constructor
    · simp [isQuotedField, h]
    · show String.mk (unquoteField (doubleQuotes s.data ++ ['"'])) = s
      rw [unquote_double]
  · have hf : needsQuoting s = false := by simpa using h
    have hq := (needsQuoting_false_not_mem hf).2.1
    rw [show escapeCSV s = s by simp [escapeCSV, hf]]
    constructor
    · rw [hf]
      cases hd : s.data with
      | nil => simp [isQuotedField, hd]
      | cons c cs =>
        have hc : c ≠ '"' := by
          intro he; exact hq (by rw [hd, he]; exact List.mem_cons_self _ _)
        simp [isQuotedField, hd, hc]
    · cases hd : s.data with
      | nil => simp [parseCSVField, hd]
      | cons c cs =>
        have hc : c ≠ '"' := by
          intro he; exact hq (by rw [hd, he]; exact List.mem_cons_self _ _)
        simp [parseCSVField, hd, hc]

theorem processVideos_none (normDate : String → String) :
    ∀ (cnt : Nat) (vs : List RemoteVideo),
      processVideos normDate none cnt vs =
        (vs.filter (fun v => 120 ≤ parseDurationToSeconds v.duration)).map
          (mapRemoteVideo normDate) := by
  intro cnt vs
  induction vs generalizing cnt with
  | nil => rfl
  | cons v vs ih =>
    by_cases h : parseDurationToSeconds v.duration < 120
    · have hf : ¬ 120 ≤ parseDurationToSeconds v.duration := by omega
      simp [processVideos, h, List.filter_cons, hf, ih cnt]
    · have hf : 120 ≤ parseDurationToSeconds v.duration := by omega
      simp [processVideos, h, limitReached, List.filter_cons, hf, ih (cnt + 1)]

/-- Claim C5: with no limit in force, the upload-listing loop keeps exactly
the remote videos whose parsed duration is at least 120 seconds, in order;
a 119-second video is dropped and a 120-second video is kept. -/
theorem c5_short_video_filter :
    (∀ (normDate : String → String) (vs : List RemoteVideo),
      processVideos normDate none 0 vs =
        (vs.filter (fun v => 120 ≤ parseDurationToSeconds v.duration)).map
          (mapRemoteVideo normDate)) ∧
    (∀ (normDate : String → String) (v : RemoteVideo) (vs : List RemoteVideo),
      parseDurationToSeconds v.duration < 120 →
        processVideos normDate none 0 (v :: vs) = processVideos normDate none 0 vs) ∧
    processVideos (fun x => x) none 0
      [⟨"shortvideo1", "s", "d", "2024-01-01", "PT1M59S",
        none, none, none, none, none, none, none, none⟩,
       ⟨"keptvideo01", "k", "d", "2024-01-01", "PT2M",
        none, none, none, none, none, none, none, none⟩] =
      [mapRemoteVideo (fun x => x)
        ⟨"keptvideo01", "k", "d", "2024-01-01", "PT2M",
         none, none, none, none, none, none, none, none⟩] := by
  refine ⟨fun normDate vs => processVideos_none normDate 0 vs,
    fun normDate v vs h => by simp [processVideos, h], by decide⟩

/-- Claim C5 witness: the skip clause applied to the concrete 119-second
video. -/
theorem c5_short_video_filter_witness :
    processVideos (fun x => x) none 0
      [⟨"shortvideo1", "s", "d", "2024-01-01", "PT1M59S",
        none, none, none, none, none, none, none, none⟩] =
      processVideos (fun x => x) none 0 [] :=
  c5_short_video_filter.2.1 (fun x => x)
    ⟨"shortvideo1", "s", "d", "2024-01-01", "PT1M59S",
     none, none, none, none, none, none, none, none⟩ [] (by decide)

/-- Claim C9 counterexample: for a store holding one channel whose `visible`
flag is null, the summary counts that channel both as hidden and as
null-visibility, so the three visibility counts sum to 2, not to
`total_channels = 1` — the classification is not a partition. -/
theorem c9_counterexample :
    (summaryOf ⟨[⟨"c", "n", none, none, none⟩], [], []⟩).total_channels = 1 ∧
    (summaryOf ⟨[⟨"c", "n", none, none, none⟩], [], []⟩).visibleCnt = 0 ∧
    (summaryOf ⟨[⟨"c", "n", none, none, none⟩], [], []⟩).hiddenCnt = 1 ∧
    (summaryOf ⟨[⟨"c", "n", none, none, none⟩], [], []⟩).nullVisibilityCnt = 1 := by
  decide

/-- Claim C9 (amended): the summary's `visible`/`hidden` counts partition the
channels two ways by truthiness of the flag (they sum to `total_channels`),
while `null_visibility` separately counts the null-flag channels — each of
which is also counted as hidden, so the three counts sum to
`total_channels` plus the null count. -/
theorem c9_visibility_classification_amended (s : Store) :
    (summaryOf s).visibleCnt + (summaryOf s).hiddenCnt = (summaryOf s).total_channels ∧
    (summaryOf s).visibleCnt + (summaryOf s).hiddenCnt + (summaryOf s).nullVisibilityCnt =
      (summaryOf s).total_channels + (summaryOf s).nullVisibilityCnt ∧
    (∀ c ∈ s.channels, c.visible = none →
      hiddenPred c = true ∧ nullVisPred c = true ∧ visiblePred c = false) := by
  refine ⟨?_, ?_, ?_⟩
  · show (s.channels.filter visiblePred).length +
      (s.channels.filter hiddenPred).length = s.channels.length
    have : hiddenPred = fun c => !(visiblePred c) := rfl
    rw [this]
    exact (List.length_eq_length_filter_add visiblePred).symm
  · have : (summaryOf s).visibleCnt + (summaryOf s).hiddenCnt =
        (summaryOf s).total_channels := by
      show (s.channels.filter visiblePred).length +
        (s.channels.filter hiddenPred).length = s.channels.length
      have h : hiddenPred = fun c => !(visiblePred c) := rfl
      rw [h]
      exact (List.length_eq_length_filter_add visiblePred).symm
    omega
  · intro c _ hc
    simp [hiddenPred, nullVisPred, visiblePred, jsTruthyBool, hc]

/-- Claim C9 witness: the amended statement evaluated at the one-null-channel
store. -/
theorem c9_visibility_classification_amended_witness :
    (summaryOf ⟨[⟨"c", "n", none, none, none⟩], [], []⟩).visibleCnt +
      (summaryOf ⟨[⟨"c", "n", none, none, none⟩], [], []⟩).hiddenCnt =
      (summaryOf ⟨[⟨"c", "n", none, none, none⟩], [], []⟩).total_channels ∧
    hiddenPred ⟨"c", "n", none, none, none⟩ = true ∧
    nullVisPred ⟨"c", "n", none, none, none⟩ = true :=
  ⟨(c9_visibility_classification_amended ⟨[⟨"c", "n", none, none, none⟩], [], []⟩).1,
   ((c9_visibility_classification_amended ⟨[⟨"c", "n", none, none, none⟩], [], []⟩).2.2
     ⟨"c", "n", none, none, none⟩ (List.mem_cons_self _ _) rfl).1,
   ((c9_visibility_classification_amended ⟨[⟨"c", "n", none, none, none⟩], [], []⟩).2.2
     ⟨"c", "n", none, none, none⟩ (List.mem_cons_self _ _) rfl).2.1⟩

/-- Claim C1 counterexample: in the spec's own reconciliation scenario
(2 channels, 5+3 items, consistent summary and export files), mutating the
summary's `total_videos` to 7 makes the export-file consistency check fail
as well — it compares the CSV-derived record count (8) against the mutated
summary — contradicting the claim that the other three checks still pass. -/
theorem c1_counterexample :
    verifyVideoCountsPassed demoStore demoSummaryMut = false ∧
    verifyCSVFilesPassed demoFiles demoSummaryMut = false := by
  decide

/-- Claim C1 (amended): in the scenario store (2 channels with 5 and 3 media
items) with the summary generated consistently from it, all four
reconciliation checks pass; mutating only the summary's `total_videos` to 7
makes the video-count check and the export-file consistency check fail,
while the channel-count and data-integrity checks still pass. -/
theorem c1_reconciliation_amended :
    demoSummary.total_channels = 2 ∧
    demoSummary.total_videos = 8 ∧
    demoSummary.videos_per_channel = [("A", 5), ("B", 3)] ∧
    verifyChannelCountsPassed demoStore demoSummary = true ∧
    verifyVideoCountsPassed demoStore demoSummary = true ∧
    verifyDataIntegrityPassed demoStore = true ∧
    verifyCSVFilesPassed demoFiles demoSummary = true ∧
    verifyChannelCountsPassed demoStore demoSummaryMut = true ∧
    verifyVideoCountsPassed demoStore demoSummaryMut = false ∧
    verifyCSVFilesPassed demoFiles demoSummaryMut = false := by
  decide

theorem mem_syncPlan_updates {slug : String} {E : List String}
    {vs : List VideoData} {u : String × Int × Int × Int} :
    u ∈ (syncPlan slug E vs).1 ↔ ∃ v ∈ vs, v.id ∈ E ∧ u = updateTupleOf v := by
  induction vs with
  | nil => simp [syncPlan]
  | cons v vs ih =>
    by_cases h : v.id ∈ E
    · simp only [syncPlan, if_pos h, List.mem_cons, ih]
      constructor
      · rintro (rfl | ⟨w, hw, hwE, rfl⟩)
        · exact ⟨v, Or.inl rfl, h, rfl⟩
        · exact ⟨w, Or.inr hw, hwE, rfl⟩
      · rintro ⟨w, (rfl | hw), hwE, rfl⟩
        · exact Or.inl rfl
        · exact Or.inr ⟨w, hw, hwE, rfl⟩
    · simp only [syncPlan, if_neg h, ih]
      constructor
      · rintro ⟨w, hw, hwE, rfl⟩
        exact ⟨w, List.mem_cons_of_mem _ hw, hwE, rfl⟩
      · rintro ⟨w, hw, hwE, rfl⟩
        rcases List.mem_cons.mp hw with rfl | hw2
        · exact absurd hwE h
        · exact ⟨w, hw2, hwE, rfl⟩

theorem mem_syncPlan_inserts {slug : String} {E : List String}
    {vs : List VideoData} {r : MediaItemRow} :
    r ∈ (syncPlan slug E vs).2 ↔
      ∃ v ∈ vs, v.id ∉ E ∧ r = buildNewRecord slug v := by
  induction vs with
  | nil => simp [syncPlan]
  | cons v vs ih =>
    by_cases h : v.id ∈ E
    · simp only [syncPlan, if_pos h, ih]
      constructor
      · rintro ⟨w, hw, hwE, rfl⟩
        exact ⟨w, List.mem_cons_of_mem _ hw, hwE, rfl⟩
      · rintro ⟨w, hw, hwE, rfl⟩
        rcases List.mem_cons.mp hw with rfl | hw2
        · exact absurd h hwE
        · exact ⟨w, hw2, hwE, rfl⟩
    · simp only [syncPlan, if_neg h, List.mem_cons, ih]
      constructor
      · rintro (rfl | ⟨w, hw, hwE, rfl⟩)
        · exact ⟨v, Or.inl rfl, h, rfl⟩
        · exact ⟨w, Or.inr hw, hwE, rfl⟩
      · rintro ⟨w, (rfl | hw), hwE, rfl⟩
        · exact Or.inl rfl
        · exact Or.inr ⟨w, hw, hwE, rfl⟩

theorem applyUpdate_descFields (items : List MediaItemRow)
    (u : String × Int × Int × Int) (j : Nat) :
    ((applyUpdate items u)[j]?).map descFields = (items[j]?).map descFields := by
  simp only [applyUpdate, List.getElem?_map]
  cases items[j]? with
  | none => rfl
  | some r =>
    by_cases h : r.id = u.1 <;> simp [h, descFields]

theorem applyUpdate_length (items : List MediaItemRow)
    (u : String × Int × Int × Int) :
    (applyUpdate items u).length = items.length := by
  simp [applyUpdate]

theorem applyUpdates_descFields (us : List (String × Int × Int × Int)) :
    ∀ (items : List MediaItemRow) (j : Nat),
      ((applyUpdates items us)[j]?).map descFields = (items[j]?).map descFields := by
  induction us with
  | nil => intro items j; rfl
  | cons u us ih =>
    intro items j
    have step : applyUpdates items (u :: us) = applyUpdates (applyUpdate items u) us := rfl
    rw [step, ih (applyUpdate items u) j, applyUpdate_descFields]

theorem applyUpdates_length (us : List (String × Int × Int × Int)) :
    ∀ items : List MediaItemRow, (applyUpdates items us).length = items.length := by
  induction us with
  | nil => intro items; rfl
  | cons u us ih =>
    intro items
    have step : applyUpdates items (u :: us) = applyUpdates (applyUpdate items u) us := rfl
    rw [step, ih (applyUpdate items u), applyUpdate_length]

/-- Claim C3: `insertNewMediaItems` partitions the incoming batch against the
stored id set `E`: the inserted rows carry exactly the ids of the batch
outside `E`, the queued updates exactly the batch ids inside `E`, every
incoming video lands on exactly one side, updates carry only the three
defaulted counters, and every pre-existing row keeps all of its
non-counter fields. -/
theorem c3_sync_partition (s : Store) (slug : String) (videos : List VideoData) :
    (∀ i : String,
      (∃ r ∈ (syncPlan slug (existingIds s slug) videos).2, r.id = i) ↔
        ((∃ v ∈ videos, v.id = i) ∧ i ∉ existingIds s slug)) ∧
    (∀ i : String,
      (∃ u ∈ (syncPlan slug (existingIds s slug) videos).1, u.1 = i) ↔
        ((∃ v ∈ videos, v.id = i) ∧ i ∈ existingIds s slug)) ∧
    (∀ v ∈ videos,
      ((∃ u ∈ (syncPlan slug (existingIds s slug) videos).1, u.1 = v.id) ∧
        ¬(∃ r ∈ (syncPlan slug (existingIds s slug) videos).2, r.id = v.id)) ∨
      ((∃ r ∈ (syncPlan slug (existingIds s slug) videos).2, r.id = v.id) ∧
        ¬(∃ u ∈ (syncPlan slug (existingIds s slug) videos).1, u.1 = v.id))) ∧
    (∀ u ∈ (syncPlan slug (existingIds s slug) videos).1,
      ∃ v ∈ videos, u = updateTupleOf v) ∧
    ((insertNewMediaItemsPure s slug videos).items.length =
      s.items.length + (syncPlan slug (existingIds s slug) videos).2.length) ∧
    (∀ j : Nat, j < s.items.length →
      (((insertNewMediaItemsPure s slug videos).items[j]?).map descFields =
        (s.items[j]?).map descFields)) := by
  refine ⟨?_, ?_, ?_, ?_, ?_, ?_⟩
  · intro i
    constructor
    · rintro ⟨r, hr, rfl⟩
      obtain ⟨v, hv, hvE, rfl⟩ := mem_syncPlan_inserts.mp hr
      exact ⟨⟨v, hv, rfl⟩, hvE⟩
    · rintro ⟨⟨v, hv, rfl⟩, hE⟩
      exact ⟨buildNewRecord slug v, mem_syncPlan_inserts.mpr ⟨v, hv, hE, rfl⟩, rfl⟩
  · intro i
    constructor
    · rintro ⟨u, hu, rfl⟩
      obtain ⟨v, hv, hvE, rfl⟩ := mem_syncPlan_updates.mp hu
      exact ⟨⟨v, hv, rfl⟩, hvE⟩
    · rintro ⟨⟨v, hv, rfl⟩, hE⟩
      exact ⟨updateTupleOf v, mem_syncPlan_updates.mpr ⟨v, hv, hE, rfl⟩, rfl⟩
  · intro v hv
    by_cases hE : v.id ∈ existingIds s slug
    · refine Or.inl ⟨⟨updateTupleOf v, mem_syncPlan_updates.mpr ⟨v, hv, hE, rfl⟩, rfl⟩, ?_⟩
      rintro ⟨r, hr, hid⟩
      obtain ⟨w, _, hwE, rfl⟩ := mem_syncPlan_inserts.mp hr
      have hid2 : w.id = v.id := hid
      exact hwE (hid2 ▸ hE)
    · refine Or.inr ⟨⟨buildNewRecord slug v, mem_syncPlan_inserts.mpr ⟨v, hv, hE, rfl⟩, rfl⟩, ?_⟩
      rintro ⟨u, hu, hid⟩
      obtain ⟨w, _, hwE, rfl⟩ := mem_syncPlan_updates.mp hu
      have hid2 : w.id = v.id := hid
      exact hE (hid2 ▸ hwE)
  · intro u hu
    obtain ⟨v, hv, _, rfl⟩ := mem_syncPlan_updates.mp hu
    exact ⟨v, hv, rfl⟩
  · show (applyUpdates s.items _ ++ _).length = _
    rw [List.length_append, applyUpdates_length]
  · intro j hj
    show ((applyUpdates s.items _ ++ _)[j]?).map descFields = _
    rw [List.getElem?_append_left (by rw [applyUpdates_length]; exact hj),
      applyUpdates_descFields]

/-- Claim C3 witness: the partition evaluated on a store holding item `x` for
channel `c` and a batch containing one seen and one unseen id. -/
theorem c3_sync_partition_witness :
    ((∃ r ∈ (syncPlan "c" (existingIds demoStoreX "c")
        [demoVideo "x", demoVideo "y"]).2, r.id = "y") ↔
      ((∃ v ∈ [demoVideo "x", demoVideo "y"], v.id = "y") ∧
        "y" ∉ existingIds demoStoreX "c")) ∧
    ((∃ u ∈ (syncPlan "c" (existingIds demoStoreX "c")
        [demoVideo "x", demoVideo "y"]).1, u.1 = "x") ↔
      ((∃ v ∈ [demoVideo "x", demoVideo "y"], v.id = "x") ∧
        "x" ∈ existingIds demoStoreX "c")) :=
  ⟨(c3_sync_partition demoStoreX "c" [demoVideo "x", demoVideo "y"]).1 "y",
   (c3_sync_partition demoStoreX "c" [demoVideo "x", demoVideo "y"]).2.1 "x"⟩

theorem startsWithL_self_append (sub z : List Char) :
    startsWithL sub (sub ++ z) = true := by
  induction sub with
  | nil => rfl
  | cons a as ih => simp [startsWithL, ih]

theorem inclAux_self_append (sub z : List Char) :
    inclAux sub (sub ++ z) = true := by
  cases sub with
  | nil =>
    cases z with
    | nil => rfl
    | cons c cs => simp [inclAux, startsWithL]
  | cons a as =>
    have h := startsWithL_self_append (a :: as) z
    simp only [List.cons_append] at h ⊢
    simp [inclAux, h]

theorem inclAux_of_split (sub x z : List Char) :
    inclAux sub (x ++ (sub ++ z)) = true := by
  induction x with
  | nil => simpa using inclAux_self_append sub z
  | cons c x ih => simp [inclAux, List.cons_append, ih]

theorem strIncludes_watch (i : String) :
    strIncludes ("https://www.youtube.com/watch?v=" ++ i)
      "youtube.com/watch?v=" = true := by
  have hd : ("https://www.youtube.com/watch?v=" ++ i).data =
      "https://www.".data ++ ("youtube.com/watch?v=".data ++ i.data) := by
    rw [String.data_append]
    rfl
  rw [strIncludes, hd]
  exact inclAux_of_split _ _ _

/-- Claim C10: every row newly inserted by the sync has `youtube_url` equal
to `https://www.youtube.com/watch?v=` followed by its id, `youtube_id`
equal to its id, and `content_type` defaulting to `podcast` when the
incoming record carries none; consequently the integrity check's
malformed-URL test never flags such a row. -/
theorem c10_inserted_row_url_invariant (s : Store) (slug : String)
    (videos : List VideoData) (r : MediaItemRow)
    (hr : r ∈ (syncPlan slug (existingIds s slug) videos).2) :
    r.youtube_url = some ("https://www.youtube.com/watch?v=" ++ r.id) ∧
    r.youtube_id = some r.id ∧
    (∃ v ∈ videos, r = buildNewRecord slug v ∧
      (v.contentType = none → r.content_type = some "podcast")) ∧
    urlIssue r = false := by
  obtain ⟨v, hv, _, rfl⟩ := mem_syncPlan_inserts.mp hr
  refine ⟨rfl, rfl, ⟨v, hv, rfl, fun hct => by simp [buildNewRecord, hct, jsOrStr]⟩, ?_⟩
  show urlIssue (buildNewRecord slug v) = false
  have hurl : (buildNewRecord slug v).youtube_url =
      some ("https://www.youtube.com/watch?v=" ++ v.id) := rfl
  have hne : ("https://www.youtube.com/watch?v=" ++ v.id) ≠ "" := by
    intro he
    have : ("https://www.youtube.com/watch?v=" ++ v.id).data = [] := by
      rw [he]
    rw [String.data_append] at this
    simp at this
  simp [urlIssue, hurl, jsTruthyStr, hne, strIncludes_watch]

/-- Claim C10 witness: the invariant evaluated at the one inserted row of a
singleton batch against the empty store. -/
theorem c10_inserted_row_url_invariant_witness :
    (buildNewRecord "c" (demoVideo "y")).youtube_url =
      some ("https://www.youtube.com/watch?v=" ++
        (buildNewRecord "c" (demoVideo "y")).id) ∧
    urlIssue (buildNewRecord "c" (demoVideo "y")) = false :=
  ⟨(c10_inserted_row_url_invariant ⟨[], [], []⟩ "c" [demoVideo "y"]
      (buildNewRecord "c" (demoVideo "y")) (by decide)).1,
   (c10_inserted_row_url_invariant ⟨[], [], []⟩ "c" [demoVideo "y"]
      (buildNewRecord "c" (demoVideo "y")) (by decide)).2.2.2⟩

/-- Claim C7: `upsertChannelStatistics` writes (by the `(channel_slug, date)`
key) a snapshot row whose `calculated_total_likes` is the sum of the stored
likes counters of the channel's items, missing counters counted as 0, and
likewise for comments: such a row exists afterwards, and every row under
that key carries exactly those sums. -/
theorem c7_stats_aggregation (s : Store) (slug : String)
    (stats : ChannelStatistics) (date : String) :
    (∃ r ∈ (upsertChannelStatisticsPure s slug stats date).stats,
      r.channel_slug = slug ∧ r.date = date) ∧
    (∀ r ∈ (upsertChannelStatisticsPure s slug stats date).stats,
      r.channel_slug = slug → r.date = date →
        r.calculated_total_likes = some (sumLikes s slug) ∧
        r.calculated_total_comments = some (sumComments s slug)) := by
  by_cases h : (s.stats.any (fun x => x.channel_slug = slug && x.date = date)) = true
  · obtain ⟨x, hx, hPx⟩ := List.any_eq_true.mp h
    rw [Bool.and_eq_true, decide_eq_true_eq, decide_eq_true_eq] at hPx
    obtain ⟨hx1, hx2⟩ := hPx
    have hbr : upsertChannelStatisticsPure s slug stats date =
        { s with stats := s.stats.map (fun y => if y.channel_slug = slug && y.date = date then { statRecordOf s slug stats date with created_at := y.created_at } else y) } := by
      simp [upsertChannelStatisticsPure, h]
    rw [hbr]
    constructor
    · refine ⟨{ statRecordOf s slug stats date with created_at := x.created_at },
        List.mem_map.mpr ⟨x, hx, ?_⟩, rfl, rfl⟩
      rw [if_pos (by simp [hx1, hx2])]
    · intro r hr h1 h2
      obtain ⟨y, hy, hyr⟩ := List.mem_map.mp hr
      by_cases hPy : (y.channel_slug = slug && y.date = date) = true
      · rw [if_pos hPy] at hyr
        rw [← hyr]
        exact ⟨rfl, rfl⟩
      · rw [if_neg hPy] at hyr
        rw [← hyr] at h1 h2
        exact absurd (by simp [h1, h2]) hPy
  · have hbr : upsertChannelStatisticsPure s slug stats date =
        { s with stats := s.stats ++ [statRecordOf s slug stats date] } := by
      simp only [upsertChannelStatisticsPure]
      rw [if_neg h]
    rw [hbr]
    constructor
    · exact ⟨statRecordOf s slug stats date,
        List.mem_append.mpr (Or.inr (List.mem_singleton.mpr rfl)), rfl, rfl⟩
    · intro r hr h1 h2
      rcases List.mem_append.mp hr with hl | hrr
      · exact absurd (List.any_eq_true.mpr ⟨r, hl, by simp [h1, h2]⟩) h
      · rw [List.mem_singleton.mp hrr]
        exact ⟨rfl, rfl⟩

/-- Claim C7 witness: syncing items with likes `[3, 7, 0]` (plus a
foreign-channel item that is not aggregated) yields a snapshot with
`calculated_total_likes = 10`; the empty item set yields 0. -/
theorem c7_stats_aggregation_witness :
    sumLikes demoStoreLikes "c" = 10 ∧
    sumLikes ⟨[], [], []⟩ "c" = 0 ∧
    (∃ r ∈ (upsertChannelStatisticsPure demoStoreLikes "c"
        ⟨none, none, none⟩ "2024-01-02").stats,
      r.channel_slug = "c" ∧ r.date = "2024-01-02") ∧
    (∀ r ∈ (upsertChannelStatisticsPure demoStoreLikes "c"
        ⟨none, none, none⟩ "2024-01-02").stats,
      r.channel_slug = "c" → r.date = "2024-01-02" →
        r.calculated_total_likes = some (sumLikes demoStoreLikes "c") ∧
        r.calculated_total_comments = some (sumComments demoStoreLikes "c")) :=
  ⟨by decide, by decide,
   (c7_stats_aggregation demoStoreLikes "c" ⟨none, none, none⟩ "2024-01-02").1,
   (c7_stats_aggregation demoStoreLikes "c" ⟨none, none, none⟩ "2024-01-02").2⟩

theorem upsertChannelPure_pos {s : Store} {d : ChannelData}
    (ha : (s.channels.any (fun c => c.slug = d.slug)) = true) :
    upsertChannelPure s d =
      { s with channels := s.channels.map (fun c => if c.slug = d.slug then applyChanRecord c d else c) } := by
  simp only [upsertChannelPure, ha, if_true]

theorem upsertChannelPure_neg {s : Store} {d : ChannelData}
    (ha : ¬(s.channels.any (fun c => c.slug = d.slug)) = true) :
    upsertChannelPure s d = { s with channels := s.channels ++ [newChanRow d] } := by
  simp only [upsertChannelPure]
  rw [if_neg ha]

/-- Claim C8: with the slug-uniqueness the primary key guarantees (at most
one stored row per slug), calling `upsertChannel` leaves exactly one row for
the slug, and calling it again with identical input changes nothing — the
second call creates no second row (idempotence of the upsert keyed by
slug). -/
theorem c8_upsert_idempotent (s : Store) (d : ChannelData)
    (h : (s.channels.filter (fun c => c.slug = d.slug)).length ≤ 1) :
    ((upsertChannelPure s d).channels.filter (fun c => c.slug = d.slug)).length = 1 ∧
    upsertChannelPure (upsertChannelPure s d) d = upsertChannelPure s d := by
  by_cases ha : (s.channels.any (fun c => c.slug = d.slug)) = true
  · have hbr := upsertChannelPure_pos ha
    have hslug : ∀ c : ChannelRow,
        (if c.slug = d.slug then applyChanRecord c d else c).slug = c.slug := by
      intro c
      by_cases hc : c.slug = d.slug <;> simp [hc, applyChanRecord]
    have hfix : ∀ c : ChannelRow,
        (fun c => if c.slug = d.slug then applyChanRecord c d else c)
          ((fun c => if c.slug = d.slug then applyChanRecord c d else c) c) =
        (fun c => if c.slug = d.slug then applyChanRecord c d else c) c := by
      intro c
      by_cases hc : c.slug = d.slug
      · simp only [if_pos hc]
        rw [if_pos (show (applyChanRecord c d).slug = d.slug from hc)]
        rfl
      · simp [hc]
    constructor
    · rw [hbr]
      show ((s.channels.map _).filter _).length = 1
      rw [List.filter_map]
      have hcomp :
          ((fun c : ChannelRow => decide (c.slug = d.slug)) ∘
            (fun c => if c.slug = d.slug then applyChanRecord c d else c)) =
          (fun c : ChannelRow => decide (c.slug = d.slug)) := by
        funext c
        simp [Function.comp, hslug c]
      rw [hcomp, List.length_map]
      obtain ⟨x, hx, hPx⟩ := List.any_eq_true.mp ha
      have hmem : x ∈ s.channels.filter (fun c => c.slug = d.slug) :=
        List.mem_filter.mpr ⟨hx, hPx⟩
      have hpos := List.length_pos_of_mem hmem
      omega
    · have ha2 : ((upsertChannelPure s d).channels.any (fun c => c.slug = d.slug)) = true := by
        rw [hbr]
        obtain ⟨x, hx, hPx⟩ := List.any_eq_true.mp ha
        refine List.any_eq_true.mpr ⟨_, List.mem_map.mpr ⟨x, hx, rfl⟩, ?_⟩
        rw [decide_eq_true_eq] at hPx ⊢
        rw [hslug x]
        exact hPx
      have hbr2 := upsertChannelPure_pos ha2
      rw [hbr2, hbr]
      simp only [List.map_map]
      congr 1
      exact List.map_congr_left (fun c _ => hfix c)
  · have hbr := upsertChannelPure_neg ha
    have hnone : ∀ c ∈ s.channels, ¬(c.slug = d.slug) := by
      intro c hc hceq
      exact ha (List.any_eq_true.mpr ⟨c, hc, decide_eq_true hceq⟩)
    constructor
    · rw [hbr]
      show ((s.channels ++ [newChanRow d]).filter _).length = 1
      rw [List.filter_append]
      have h0 : s.channels.filter (fun c => c.slug = d.slug) = [] :=
        List.filter_eq_nil_iff.mpr (fun c hc => by simpa using hnone c hc)
      rw [h0]
      simp [newChanRow]
    · have ha2 : ((upsertChannelPure s d).channels.any (fun c => c.slug = d.slug)) = true := by
        rw [hbr]
        refine List.any_eq_true.mpr ⟨newChanRow d,
          List.mem_append.mpr (Or.inr (List.mem_singleton.mpr rfl)), ?_⟩
        simp [newChanRow]
      have hbr2 := upsertChannelPure_pos ha2
      rw [hbr2, hbr]
      simp only [List.map_append]
      congr 1
      · congr 1
        · have hid : ∀ c ∈ s.channels,
              (if c.slug = d.slug then applyChanRecord c d else c) = c := by
            intro c hc
            rw [if_neg (hnone c hc)]
          rw [List.map_congr_left hid]
          exact List.map_id _
        · show [if (newChanRow d).slug = d.slug then applyChanRecord (newChanRow d) d else newChanRow d] = [newChanRow d]
          rw [if_pos (show (newChanRow d).slug = d.slug from rfl)]
          rfl

/-- Claim C8 witness: the idempotent upsert evaluated on the empty store. -/
theorem c8_upsert_idempotent_witness :
    ((upsertChannelPure ⟨[], [], []⟩ ⟨"a", "n", none⟩).channels.filter
      (fun c => c.slug = "a")).length = 1 ∧
    upsertChannelPure (upsertChannelPure ⟨[], [], []⟩ ⟨"a", "n", none⟩)
      ⟨"a", "n", none⟩ = upsertChannelPure ⟨[], [], []⟩ ⟨"a", "n", none⟩ :=
  c8_upsert_idempotent ⟨[], [], []⟩ ⟨"a", "n", none⟩ (by decide)

/-- Claim C2 counterexample: with a store plan under which only the
per-item counter update of item `x` fails, `insertNewMediaItems` on a batch
whose single item already exists returns success — the write failure is
silently swallowed (the update's `error` field is never inspected), and the
row's counters are left unwritten. -/
theorem c2_counterexample :
    demoFailPlan.updateErr "x" = some "boom" ∧
    insertNewMediaItemsE demoFailPlan demoStoreX "c" [demoVideo "x"] =
      .ok demoStoreX := by
  exact ⟨rfl, rfl⟩

/-- Claim C2 (amended): every checked store failure of a Persistence Gateway
operation surfaces as an error carrying the underlying store message — the
existing-ids read and the bulk insert of `insertNewMediaItems`, the channel
upsert, the media-item read, the all-channels read, the latest-date read,
the statistics-history read, and both store calls of
`upsertChannelStatistics`; but the per-item counter updates of
`insertNewMediaItems` are fire-and-forget, so when only updates fail the
operation still reports success. -/
theorem c2_error_surfacing_amended (fp : FailPlan) (s : Store)
    (d : ChannelData) (slug : String) (videos : List VideoData)
    (stats : ChannelStatistics) (date m : String) (days : Nat) :
    (fp.upsertChannelErr = some m →
      upsertChannelE fp s d = .error ("Failed to upsert channel: " ++ m)) ∧
    (fp.selectIdsErr = some m →
      insertNewMediaItemsE fp s slug videos =
        .error ("Failed to fetch existing videos: " ++ m)) ∧
    (fp.selectIdsErr = none → fp.insertErr = some m →
      (syncPlan slug (existingIds s slug) videos).2.isEmpty = false →
      insertNewMediaItemsE fp s slug videos =
        .error ("Failed to insert new media items: " ++ m)) ∧
    (fp.selectItemsErr = some m →
      getChannelMediaItemsE fp s slug =
        .error ("Failed to get channel media items: " ++ m)) ∧
    (fp.selectAllChannelsErr = some m →
      getAllChannelsE fp s = .error ("Failed to get all channels: " ++ m)) ∧
    (fp.selectLatestDateErr = some m →
      getLatestMediaItemDateE fp s slug =
        .error ("Failed to get latest media item date: " ++ m)) ∧
    (fp.selectHistoryErr = some m →
      getChannelStatisticsHistoryE fp s slug days =
        .error ("Failed to get channel statistics history: " ++ m)) ∧
    (fp.selectCountersErr = some m →
      upsertChannelStatisticsE fp s slug stats date =
        .error ("Failed to get video stats: " ++ m)) ∧
    (fp.selectCountersErr = none → fp.upsertStatsErr = some m →
      upsertChannelStatisticsE fp s slug stats date =
        .error ("Failed to upsert channel statistics: " ++ m)) ∧
    (fp.selectIdsErr = none →
      (syncPlan slug (existingIds s slug) videos).2.isEmpty = true →
      insertNewMediaItemsE fp s slug videos =
        .ok { s with items := applyUpdatesFallible fp s.items (syncPlan slug (existingIds s slug) videos).1 }) := by
  refine ⟨?_, ?_, ?_, ?_, ?_, ?_, ?_, ?_, ?_, ?_⟩
  · intro h; simp [upsertChannelE, h]
  · intro h; simp [insertNewMediaItemsE, h]
  · intro h1 h2 h3; simp [insertNewMediaItemsE, h1, h2, h3]
  · intro h; simp [getChannelMediaItemsE, h]
  · intro h; simp [getAllChannelsE, h]
  · intro h; simp [getLatestMediaItemDateE, h]
  · intro h; simp [getChannelStatisticsHistoryE, h]
  · intro h; simp [upsertChannelStatisticsE, h]
  · intro h1 h2; simp [upsertChannelStatisticsE, h1, h2]
  · intro h1 h3; simp [insertNewMediaItemsE, h1, h3]

/-- Claim C2 witness: the amended statement evaluated concretely — a failing
channel upsert surfaces `boom`, a failing latest-date read and a failing
statistics-history read surface `boom`, while the all-updates-fail sync on
an already-stored batch succeeds. -/
theorem c2_error_surfacing_amended_witness :
    upsertChannelE demoFailPlanAll ⟨[], [], []⟩ ⟨"a", "n", none⟩ =
      .error ("Failed to upsert channel: " ++ "boom") ∧
    getLatestMediaItemDateE demoFailPlanAll ⟨[], [], []⟩ "c" =
      .error ("Failed to get latest media item date: " ++ "boom") ∧
    getChannelStatisticsHistoryE demoFailPlanAll ⟨[], [], []⟩ "c" 30 =
      .error ("Failed to get channel statistics history: " ++ "boom") ∧
    insertNewMediaItemsE demoFailPlan demoStoreX "c" [demoVideo "x"] =
      .ok { demoStoreX with items := applyUpdatesFallible demoFailPlan demoStoreX.items (syncPlan "c" (existingIds demoStoreX "c") [demoVideo "x"]).1 } :=
  ⟨(c2_error_surfacing_amended demoFailPlanAll ⟨[], [], []⟩ ⟨"a", "n", none⟩
      "c" [] ⟨none, none, none⟩ "d" "boom" 30).1 rfl,
   (c2_error_surfacing_amended demoFailPlanAll ⟨[], [], []⟩ ⟨"a", "n", none⟩
      "c" [] ⟨none, none, none⟩ "d" "boom" 30).2.2.2.2.2.1 rfl,
   (c2_error_surfacing_amended demoFailPlanAll ⟨[], [], []⟩ ⟨"a", "n", none⟩
      "c" [] ⟨none, none, none⟩ "d" "boom" 30).2.2.2.2.2.2.1 rfl,
   (c2_error_surfacing_amended demoFailPlan demoStoreX ⟨"a", "n", none⟩
      "c" [demoVideo "x"] ⟨none, none, none⟩ "d" "boom" 30).2.2.2.2.2.2.2.2.2
     rfl (by decide)⟩

end TickerTV
